import Mathlib

/-!
Verification of the i3bar status-line generator (`src/main.rs`) against its
natural-language specification.

The program is a single Rust binary: it writes a protocol header to stdout,
then loops forever, each cycle building a `Vec<StatusLine>` from six
collectors (OS identity, CPU load, memory usage, storage usage, network
throughput, clock), serializing it with `serde_json` and printing it
followed by a comma.

Shallow embedding conventions:
- the `sysinfo::System` adapter is modelled by the structure `System` holding
  exactly the values the collectors read after their refresh calls;
- `u64` readings are `Nat` (no arithmetic here comes near `2 ^ 64`, except the
  `total_space - available_space` subtraction, which is modelled as the
  partial `checkedSub` because Rust unsigned subtraction is not defined on
  underflow — it panics in debug builds);
- a disk name is stored as the result of `get_name().to_str()`: an
  `Option String`, `none` encoding an OS string that is not valid UTF-8, on
  which the source's `.unwrap()` panics, so `storage_info` and the whole
  cycle are `Option`-valued;
- Rust's `{:.1}` float formatting of `(n as f64) / (d as f64)` is modelled by
  `fmt1 n d`: exact rational rounding of `n / d` to one decimal, ties to
  even, which agrees with the float pipeline whenever the quotient is exactly
  representable (all concrete inputs used below are);
- `serde_json::to_string` on the derived `Serialize` of `StatusLine` is
  modelled by `serializeStatusLine`: every field is emitted in declaration
  order and an `Option` field without a `skip_serializing_if` attribute
  serializes `None` as `null`.
-/

/-- `enum Align` from the source; serde renames the variants to lowercase. -/
inductive Align where
  | Left : Align
  | Right : Align
  | Center : Align
deriving DecidableEq, Repr

/-- `struct StatusLine` from the source: one display segment. -/
structure StatusLine where
  full_text : String
  color : String
  min_width : Option Nat
  align : Option Align
deriving DecidableEq, Repr

def Color.RED : String := "#ea6962"

def Color.GREEN : String := "#a9b665"

def Color.YELLOW : String := "#d8a657"

def Color.BLUE : String := "#7daea3"

def Color.MAGENTA : String := "#d3869b"

def Color.CYAN : String := "#89b482"

/-- The six palette values of `impl Color`. -/
def palette : List String :=
  [Color.RED, Color.GREEN, Color.YELLOW, Color.BLUE, Color.MAGENTA, Color.CYAN]

/-- One mounted volume as read through `sysinfo::DiskExt`.
`name` is the result of `disk.get_name().to_str()`: `none` means the
OS-level name is not valid UTF-8. -/
structure Disk where
  name : Option String
  total_space : Nat
  available_space : Nat
deriving DecidableEq, Repr

/-- The `sysinfo::System` adapter state as read by the collectors after their
refresh calls.  `cpu_load_num / cpu_load_den` is the rational value of the
`f32` returned by `get_global_processor_info().get_cpu_usage()`. -/
structure System where
  long_os_version : Option String
  cpu_load_num : Nat
  cpu_load_den : Nat
  used_memory : Nat
  total_memory : Nat
  disks : List Disk
  networks : List (Nat × Nat)
deriving DecidableEq, Repr

/-- Nearest integer to `num / den`, ties to even — the rounding used by
Rust's `{:.1}` on the exact value being printed (`den = 0` never occurs on
the inputs the program uses). -/
def roundHalfEven (num den : Nat) : Nat :=
  let q := num / den
  let r := num % den
  if 2 * r < den then q
  else if den < 2 * r then q + 1
  else if q % 2 = 0 then q else q + 1

/-- Model of Rust `format!("{:.1}", (num as f64) / (den as f64))` for the
nonnegative quotients this program prints: one decimal digit, rounded. -/
def fmt1 (num den : Nat) : String :=
  let tenths := roundHalfEven (10 * num) den
  toString (tenths / 10) ++ "." ++ toString (tenths % 10)

/-- Right-align a string in a field of width `w` with spaces, as Rust's
`{:>w}` does. -/
def padLeft (w : Nat) (s : String) : String :=
  (List.replicate (w - s.length) ' ').asString ++ s

/-- Zero-pad to two digits, as Rust's `{:02}` does for the values `< 100`
that the clock produces. -/
def pad2 (n : Nat) : String :=
  if n < 10 then "0" ++ toString n else toString n

/-- `fn os_info`: the long OS version string, or the literal `"error"`. -/
def os_info (sys : System) : StatusLine :=
  match sys.long_os_version with
  | some os => ⟨os, Color.RED, none, none⟩
  | none => ⟨"error", Color.RED, none, none⟩

/-- `fn cpu_usage`: global processor load, `"{:>5.1} %"`. -/
def cpu_usage (sys : System) : StatusLine :=
  ⟨" : " ++ padLeft 5 (fmt1 sys.cpu_load_num sys.cpu_load_den) ++ " %",
   Color.GREEN, none, none⟩

/-- `fn memory_usage`: used and total memory, each divided by `1000000.0`. -/
def memory_usage (sys : System) : StatusLine :=
  ⟨" : " ++ fmt1 sys.used_memory 1000000 ++ "G / "
     ++ fmt1 sys.total_memory 1000000 ++ "G",
   Color.YELLOW, none, none⟩

/-- Rust `u64` subtraction `a - b`: defined only when `b ≤ a` (underflow
panics in a debug build; it is never a valid value). -/
def checkedSub (a b : Nat) : Option Nat :=
  if b ≤ a then some (a - b) else none

/-- The segment `storage_info` pushes for one matched disk:
`(total_space - available_space)` and `total_space`, each divided by
`1000000000.0`. -/
def diskSegment (d : Disk) : Option StatusLine :=
  (checkedSub d.total_space d.available_space).map fun used =>
    ⟨" : " ++ fmt1 used 1000000000 ++ "G / "
       ++ fmt1 d.total_space 1000000000 ++ "G",
     Color.BLUE, none, none⟩

/-- The loop body of `fn storage_info` over the disk list.  For every disk —
matched or not — the name goes through `to_str().unwrap()` first, so a
non-UTF-8 name (`none`) aborts (`none` result). -/
def storageInfoAux : List Disk → Option (List StatusLine)
  | [] => some []
  | d :: rest => do
    let name ← d.name
    if name ≠ "/dev/sda2" then
      storageInfoAux rest
    else do
      let seg ← diskSegment d
      let segs ← storageInfoAux rest
      pure (seg :: segs)

/-- `fn storage_info`: one segment per disk named `/dev/sda2`. -/
def storage_info (sys : System) : Option (List StatusLine) :=
  storageInfoAux sys.disks

/-- `fn network_usage`: received and transmitted bytes summed over all
interfaces, each divided by `1000000.`. -/
def network_usage (sys : System) : StatusLine :=
  let rx := sys.networks.foldl (fun acc p => acc + p.1) 0
  let tx := sys.networks.foldl (fun acc p => acc + p.2) 0
  ⟨" : " ++ fmt1 rx 1000000 ++ "M |  : " ++ fmt1 tx 1000000 ++ "M",
   Color.MAGENTA, none, none⟩

/-- The local wall-clock reading the clock collector takes
(`chrono::Local::now()`), with `hour` on the 24-hour clock as chrono
stores it. -/
structure LocalTime where
  day : Nat
  month : Nat
  year : Int
  hour : Nat
  minute : Nat
deriving DecidableEq, Repr

/-- chrono `Timelike::hour12().0`: whether the time is PM. -/
def LocalTime.isPM (t : LocalTime) : Bool :=
  12 ≤ t.hour

/-- chrono `Timelike::hour12().1`: the hour on the 12-hour clock, in
`1..=12`. -/
def LocalTime.hr12 (t : LocalTime) : Nat :=
  if t.hour % 12 = 0 then 12 else t.hour % 12

/-- `fn time`: `"{:02}/{:02}/{} {:02}:{:02} {} "` — note the trailing
space in the source format string. -/
def time (now : LocalTime) : StatusLine :=
  ⟨pad2 now.day ++ "/" ++ pad2 now.month ++ "/" ++ toString now.year ++ " "
     ++ pad2 now.hr12 ++ ":" ++ pad2 now.minute ++ " "
     ++ (if now.isPM then "PM" else "AM") ++ " ",
   Color.CYAN, none, some Align.Right⟩

/-- One iteration of the loop in `main`: the pushes and the append, in
source order.  `none` when `storage_info` panics. -/
def snapshot (sys : System) (now : LocalTime) : Option (List StatusLine) := do
  let storage ← storage_info sys
  pure ([os_info sys, cpu_usage sys, memory_usage sys]
          ++ storage ++ [network_usage sys, time now])

/-- serde_json's escaping of one character inside a JSON string: `"` and `\`
are escaped, the five short control escapes are used, other control
characters become `\u00XX` with lowercase hex, everything else is emitted
verbatim. -/
def escChar (c : Char) : String :=
  if c = '"' then "\\\""
  else if c = '\\' then "\\\\"
  else if c = Char.ofNat 8 then "\\b"
  else if c = Char.ofNat 9 then "\\t"
  else if c = Char.ofNat 10 then "\\n"
  else if c = Char.ofNat 12 then "\\f"
  else if c = Char.ofNat 13 then "\\r"
  else if c.toNat < 32 then
    "\\u00" ++ String.singleton (Nat.digitChar (c.toNat / 16))
      ++ String.singleton (Nat.digitChar (c.toNat % 16))
  else String.singleton c

/-- serde_json's JSON string literal for `s`. -/
def jsonString (s : String) : String :=
  "\"" ++ (s.data.map escChar).foldl (· ++ ·) "" ++ "\""

/-- serde rename: `Align` serializes as `"left"` / `"right"` / `"center"`. -/
def serializeAlign : Align → String
  | Align.Left => "\"left\""
  | Align.Right => "\"right\""
  | Align.Center => "\"center\""

/-- serde_json for `Option<u16>` / `Option<Align>` fields without
`skip_serializing_if`: `None` is serialized as `null`. -/
def serializeOptNat : Option Nat → String
  | none => "null"
  | some n => toString n

def serializeOptAlign : Option Align → String
  | none => "null"
  | some a => serializeAlign a

/-- `serde_json::to_string` of one `StatusLine`: all four fields, in
declaration order, no spaces. -/
def serializeStatusLine (s : StatusLine) : String :=
  "\x7b\"full_text\":" ++ jsonString s.full_text
    ++ ",\"color\":" ++ jsonString s.color
    ++ ",\"min_width\":" ++ serializeOptNat s.min_width
    ++ ",\"align\":" ++ serializeOptAlign s.align ++ "\x7d"

/-- `serde_json::to_string` of the `Vec<StatusLine>`. -/
def serializeSnapshot (l : List StatusLine) : String :=
  "[" ++ String.intercalate "," (l.map serializeStatusLine) ++ "]"

/-- The bytes of `write_all(b"{ \"version\": 1 }[")` in `main`. -/
def header : String := "\x7b \"version\": 1 \x7d["

/-- The line printed by one cycle (`println!("{},", ...)`): the serialized
snapshot, a comma, a newline; `none` when the cycle panics. -/
def emitLine (sys : System) (now : LocalTime) : Option String :=
  (snapshot sys now).map fun l => serializeSnapshot l ++ ",\n"

/-- Everything the loop writes given the sequence of adapter states and
clock readings it observes; a panicking cycle kills the process, so nothing
follows it. -/
def emitAll : List (System × LocalTime) → String
  | [] => ""
  | (sys, now) :: rest =>
    match emitLine sys now with
    | none => ""
    | some line => line ++ emitAll rest

/-- The whole stdout stream of the process: the header written once in
`main`, then the loop's lines. -/
def outputStream (cycles : List (System × LocalTime)) : String :=
  header ++ emitAll cycles

/-! Concrete fixtures used to instantiate theorems. -/

/-- An adapter state with no OS version, no disks, no interfaces, and the
memory readings of the spec's memory scenario. -/
def sysA : System := ⟨none, 0, 1, 4000000, 8000000, [], []⟩

/-- A matched volume with a sane geometry (100 GB total, 25 GB available). -/
def diskOk : Disk := ⟨some "/dev/sda2", 100000000000, 25000000000⟩

/-- A matched volume reporting more available than total space. -/
def diskBad : Disk := ⟨some "/dev/sda2", 50, 100⟩

/-- An adapter state with one disk whose OS-level name is not valid UTF-8
(`to_str()` returns `None`). -/
def sysBadDisk : System := ⟨some "Linux 5.0", 0, 1, 0, 0, [⟨none, 100, 50⟩], []⟩

/-- A concrete clock reading: 12 October 2026, 17:30 local time. -/
def now0 : LocalTime := ⟨12, 10, 2026, 17, 30⟩

/-- The divisor `1000000.0` used by `memory_usage` on both readings. -/
def memDivisor : Nat := 1000000

/-- The divisor `1000000000.0` used by `storage_info` on both figures. -/
def storageDivisor : Nat := 1000000000

/-! Auxiliary facts about the storage loop. -/

/-- Whatever `storage_info`'s loop returns without panicking has one
segment per disk whose decoded name is `/dev/sda2`, and every segment is
blue with no alignment. -/
theorem storageInfoAux_spec (l : List Disk) (st : List StatusLine)
    (h : storageInfoAux l = some st) :
    st.length = (l.filter fun d => d.name == some "/dev/sda2").length
      ∧ ∀ s ∈ st, s.color = Color.BLUE ∧ s.align = none := by
  induction l generalizing st with
  | nil =>
    simp only [storageInfoAux, Option.some.injEq] at h
    subst h
    simp
  | cons d rest ih =>
    simp only [storageInfoAux, Option.bind_eq_bind, bind, Option.bind] at h
    cases hn : d.name with
    | none => rw [hn] at h; exact absurd h (by simp)
    | some name =>
      rw [hn] at h
      by_cases hname : name = "/dev/sda2"
      · simp only [hname, ne_eq, not_true_eq_false, if_false] at h
        cases hseg : diskSegment d with
        | none => rw [hseg] at h; exact absurd h (by simp)
        | some seg =>
          rw [hseg] at h
          cases hrest : storageInfoAux rest with
          | none =>
            rw [hrest] at h
            exact absurd h (by simp)
          | some segs =>
            rw [hrest] at h
            simp only [pure, Option.some.injEq] at h
            subst h
            obtain ⟨hlen, hall⟩ := ih segs hrest
            constructor
            · simp [List.filter, hn, hname, hlen]
            · intro s hs
              rcases List.mem_cons.mp hs with hs | hs
              · subst hs
                simp only [diskSegment, Option.map] at hseg
                cases hcs : checkedSub d.total_space d.available_space with
                | none => rw [hcs] at hseg; exact absurd hseg (by simp)
                | some used =>
                  rw [hcs] at hseg
                  simp only [Option.some.injEq] at hseg
                  subst hseg
                  exact ⟨rfl, rfl⟩
              · exact hall s hs
      · simp only [hname, ne_eq, not_false_eq_true, if_true] at h
        obtain ⟨hlen, hall⟩ := ih st h
        constructor
        · have hb : (d.name == some "/dev/sda2") = false := by
            simp [hn, hname]
          simp [List.filter, hb, hlen]
        · exact hall

/-! The claims. -/

/-- C1, counterexample: the very first bytes of the stream are the header
bytes `{ "version": 1 }[` of the source — with a space after the opening
brace and before the closing brace — not the spec's `{"version": 1}[`. -/
theorem C1_counterexample :
    outputStream [] = "\x7b \"version\": 1 \x7d["
      ∧ (outputStream []).data.take 15 ≠ ("\x7b\"version\": 1\x7d[").data := by
  constructor
  · rfl
  · decide

/-- C1, amended: the header is written exactly once, at startup, before any
snapshot line: whatever cycles follow, the stream's first 17 characters are
exactly `{ "version": 1 }[` (spaces inside the braces included), and only
the emitted lines follow them. -/
theorem C1_header_once (cycles : List (System × LocalTime)) :
    (outputStream cycles).data.take 17 = header.data
      ∧ (outputStream cycles).data.drop 17 = (emitAll cycles).data
      ∧ header = "\x7b \"version\": 1 \x7d[" := by
  refine ⟨?_, ?_, rfl⟩
  · show ((header ++ emitAll cycles)).data.take 17 = header.data
    rw [String.data_append]
    exact List.take_left' (by decide)
  · show ((header ++ emitAll cycles)).data.drop 17 = (emitAll cycles).data
    rw [String.data_append]
    exact List.drop_left' (by decide)

/-- C2, counterexample: a segment whose optional fields are unset (the OS
error segment) serializes with `"min_width":null` and `"align":null` — the
keys are not omitted. -/
theorem C2_counterexample :
    (os_info sysA).min_width = none ∧ (os_info sysA).align = none
      ∧ serializeStatusLine (os_info sysA)
        = "\x7b\"full_text\":\"error\",\"color\":\"#ea6962\",\"min_width\":null,\"align\":null\x7d" := by
  refine ⟨rfl, rfl, ?_⟩
  decide

/-- C2, amended: the keys `min_width` and `align` are always present in a
serialized Segment; when the fields are unset they are emitted as JSON
`null` (the derived serializer has no skip attribute). -/
theorem C2_optional_keys (s : StatusLine) (hm : s.min_width = none)
    (ha : s.align = none) :
    serializeStatusLine s
      = ("\x7b\"full_text\":" ++ jsonString s.full_text
          ++ ",\"color\":" ++ jsonString s.color)
        ++ ",\"min_width\":null,\"align\":null\x7d" := by
  rw [serializeStatusLine, hm, ha]
  show _ ++ ",\"min_width\":" ++ "null" ++ ",\"align\":" ++ "null" ++ "\x7d" = _
  rw [String.append_assoc _ _ "\x7d", String.append_assoc _ _ ("null" ++ "\x7d"),
    String.append_assoc _ _ (",\"align\":" ++ ("null" ++ "\x7d")),
    String.append_assoc _ _ ("null" ++ (",\"align\":" ++ ("null" ++ "\x7d")))]
  rfl

theorem C2_optional_keys_witness :
    serializeStatusLine (os_info sysA)
      = ("\x7b\"full_text\":" ++ jsonString (os_info sysA).full_text
          ++ ",\"color\":" ++ jsonString (os_info sysA).color)
        ++ ",\"min_width\":null,\"align\":null\x7d" :=
  C2_optional_keys (os_info sysA) rfl rfl

/-- The loop body produces `some` exactly through `storage_info`: helper
unfolding for a successful storage pass. -/
theorem snapshot_some (sys : System) (now : LocalTime) (st : List StatusLine)
    (h : storage_info sys = some st) :
    snapshot sys now = some ([os_info sys, cpu_usage sys, memory_usage sys]
      ++ st ++ [network_usage sys, time now]) := by
  unfold snapshot
  rw [h]
  rfl

/-- Helper unfolding for a panicking storage pass. -/
theorem snapshot_none (sys : System) (now : LocalTime)
    (h : storage_info sys = none) :
    snapshot sys now = none := by
  unfold snapshot
  rw [h]
  rfl

/-- C3: every snapshot a cycle produces is, in order, the OS segment, the
CPU segment, the memory segment, the storage segments (one per disk whose
name matches `/dev/sda2`, possibly zero), the network segment, the clock
segment — the same shape for every state and every cycle. -/
theorem C3_segment_order (sys : System) (now : LocalTime) (l : List StatusLine)
    (h : snapshot sys now = some l) :
    l = [os_info sys, cpu_usage sys, memory_usage sys]
          ++ (storage_info sys).getD [] ++ [network_usage sys, time now]
      ∧ ((storage_info sys).getD []).length
          = (sys.disks.filter fun d => d.name == some "/dev/sda2").length := by
  cases hst : storage_info sys with
  | none =>
    rw [snapshot_none sys now hst] at h
    exact absurd h (by simp)
  | some st =>
    rw [snapshot_some sys now st hst] at h
    injection h with h
    subst h
    refine ⟨by simp, ?_⟩
    simpa using (storageInfoAux_spec sys.disks st hst).1

theorem C3_segment_order_witness :
    ([os_info sysA, cpu_usage sysA, memory_usage sysA, network_usage sysA,
        time now0]
      = [os_info sysA, cpu_usage sysA, memory_usage sysA]
          ++ (storage_info sysA).getD [] ++ [network_usage sysA, time now0])
    ∧ ((storage_info sysA).getD []).length
        = (sysA.disks.filter fun d => d.name == some "/dev/sda2").length :=
  C3_segment_order sysA now0 _ rfl

/-- C4: the claim "no collector aborts the cycle for any adapter state" is
right as a design rule and wrong of the code: on a disk whose OS-level name
is not valid UTF-8, `storage_info`'s `to_str().unwrap()` panics, the
spawned thread dies, and no line is emitted for the cycle. -/
theorem C4_nonutf8_disk_aborts :
    storage_info sysBadDisk = none
      ∧ snapshot sysBadDisk now0 = none
      ∧ emitLine sysBadDisk now0 = none :=
  ⟨rfl, rfl, rfl⟩

/-- C5: the memory collector divides both of its readings by `1000000` while
the storage collector divides both of its figures by `1000000000`; the two
divisors differ by exactly a factor of `1000`. -/
theorem C5_unit_divisors (sys : System) (d : Disk)
    (h : d.available_space ≤ d.total_space) :
    (memory_usage sys).full_text
        = " : " ++ fmt1 sys.used_memory memDivisor ++ "G / "
            ++ fmt1 sys.total_memory memDivisor ++ "G"
      ∧ diskSegment d
        = some ⟨" : " ++ fmt1 (d.total_space - d.available_space) storageDivisor
              ++ "G / " ++ fmt1 d.total_space storageDivisor ++ "G",
            Color.BLUE, none, none⟩
      ∧ storageDivisor = 1000 * memDivisor := by
  refine ⟨rfl, ?_, by decide⟩
  rw [diskSegment, checkedSub, if_pos h]
  rfl

theorem C5_unit_divisors_witness :
    (memory_usage sysA).full_text
        = " : " ++ fmt1 sysA.used_memory memDivisor ++ "G / "
            ++ fmt1 sysA.total_memory memDivisor ++ "G"
      ∧ diskSegment diskOk
        = some ⟨" : " ++ fmt1 (diskOk.total_space - diskOk.available_space) storageDivisor
              ++ "G / " ++ fmt1 diskOk.total_space storageDivisor ++ "G",
            Color.BLUE, none, none⟩
      ∧ storageDivisor = 1000 * memDivisor :=
  C5_unit_divisors sysA diskOk (by decide)

/-- C6, counterexample: at used = 4000000, total = 8000000 the memory
segment's text is the icon character `U+F85A` followed by
`" : 4.0G / 8.0G"`, so it is not equal to the bare `" : 4.0G / 8.0G"`
the claim states. -/
theorem C6_counterexample :
    (memory_usage sysA).full_text = " : 4.0G / 8.0G"
      ∧ (memory_usage sysA).full_text ≠ " : 4.0G / 8.0G" := by
  constructor
  · decide
  · decide

/-- C6, amended: for any adapter state reporting used = 4000000 and
total = 8000000 the memory segment's text is exactly the icon character
`U+F85A` followed by `" : 4.0G / 8.0G"` (one decimal on each figure,
deterministically). -/
theorem C6_memory_text (sys : System) (hu : sys.used_memory = 4000000)
    (ht : sys.total_memory = 8000000) :
    (memory_usage sys).full_text = " : 4.0G / 8.0G" := by
  have hm : (memory_usage sys).full_text
      = " : " ++ fmt1 sys.used_memory 1000000 ++ "G / "
        ++ fmt1 sys.total_memory 1000000 ++ "G" := rfl
  rw [hm, hu, ht]
  decide

theorem C6_memory_text_witness :
    (memory_usage sysA).full_text = " : 4.0G / 8.0G" :=
  C6_memory_text sysA rfl rfl

/-- C7: when the OS identity query returns no value, the OS segment is the
literal `"error"` in palette RED with no width or alignment hints, and —
provided storage collection itself does not panic — the cycle still
completes and emits its line. -/
theorem C7_os_error (sys : System) (now : LocalTime)
    (hos : sys.long_os_version = none)
    (hst : storage_info sys ≠ none) :
    os_info sys = ⟨"error", Color.RED, none, none⟩
      ∧ (emitLine sys now).isSome = true := by
  constructor
  · simp [os_info, hos]
  · cases hstv : storage_info sys with
    | none => exact absurd hstv hst
    | some st =>
      rw [emitLine, snapshot_some sys now st hstv]
      rfl

theorem C7_os_error_witness :
    os_info sysA = ⟨"error", Color.RED, none, none⟩
      ∧ (emitLine sysA now0).isSome = true :=
  C7_os_error sysA now0 rfl (by decide)

/-- C8: every segment of every snapshot a cycle produces carries one of the
six palette colors. -/
theorem C8_palette (sys : System) (now : LocalTime) (l : List StatusLine)
    (h : snapshot sys now = some l) :
    ∀ s ∈ l, s.color ∈ palette := by
  cases hst : storage_info sys with
  | none =>
    rw [snapshot_none sys now hst] at h
    exact absurd h (by simp)
  | some st =>
    rw [snapshot_some sys now st hst] at h
    injection h with h
    subst h
    intro s hs
    simp only [List.mem_append, List.mem_cons, List.mem_singleton,
      List.not_mem_nil, or_false] at hs
    have hos : (os_info sys).color = Color.RED := by
      rw [os_info]
      cases sys.long_os_version <;> rfl
    rcases hs with ((rfl | rfl | rfl) | hstm) | (rfl | rfl)
    · rw [hos]; decide
    · show Color.GREEN ∈ palette; decide
    · show Color.YELLOW ∈ palette; decide
    · have hb := ((storageInfoAux_spec sys.disks st hst).2 s hstm).1
      rw [hb]; decide
    · show Color.MAGENTA ∈ palette; decide
    · show Color.CYAN ∈ palette; decide

theorem C8_palette_witness :
    (os_info sysA).color ∈ palette :=
  C8_palette sysA now0
    [os_info sysA, cpu_usage sysA, memory_usage sysA, network_usage sysA,
      time now0] rfl (os_info sysA) (List.mem_cons_self _ _)

/-- C9, counterexample: at 12 October 2026, 17:30 local time the clock
segment's text is `"12/10/2026 05:30 PM "` — the source format string ends
with a space — so it is not exactly of the form `DD/MM/YYYY HH:MM AM|PM`. -/
theorem C9_counterexample :
    (time now0).full_text = "12/10/2026 05:30 PM "
      ∧ (time now0).full_text ≠ "12/10/2026 05:30 PM" := by
  constructor
  · decide
  · decide

/-- C9, amended: the clock text is the local date/time as
`DD/MM/YYYY HH:MM AM|PM` (12-hour clock in `01..12`, day, month and minute
zero-padded, year printed in full) followed by one trailing space; its
align is `right`, and no other collector's segment sets align. -/
theorem C9_clock_align (sys : System) (now : LocalTime) :
    (time now).full_text
        = pad2 now.day ++ "/" ++ pad2 now.month ++ "/" ++ toString now.year
          ++ " " ++ pad2 now.hr12 ++ ":" ++ pad2 now.minute ++ " "
          ++ (if now.isPM then "PM" else "AM") ++ " "
      ∧ (time now).align = some Align.Right
      ∧ (os_info sys).align = none
      ∧ (cpu_usage sys).align = none
      ∧ (memory_usage sys).align = none
      ∧ (network_usage sys).align = none
      ∧ ∀ st, storage_info sys = some st → ∀ s ∈ st, s.align = none := by
  refine ⟨rfl, rfl, ?_, rfl, rfl, rfl, ?_⟩
  · rw [os_info]
    cases sys.long_os_version <;> rfl
  · intro st hst s hs
    exact ((storageInfoAux_spec sys.disks st hst).2 s hs).2

theorem C9_clock_align_witness :
    (time now0).align = some Align.Right :=
  (C9_clock_align sysA now0).2.1

/-- C10: the storage collector's used-space figure is the unsigned
subtraction `total_space - available_space`; it is well-defined exactly
when `available_space ≤ total_space` — a condition the code never tests —
and on a matched volume violating it the collector has no value (the
subtraction underflows). -/
theorem C10_storage_subtraction (d e : Disk)
    (hd : d.available_space ≤ d.total_space)
    (he : e.total_space < e.available_space) :
    diskSegment d
        = some ⟨" : " ++ fmt1 (d.total_space - d.available_space) 1000000000
              ++ "G / " ++ fmt1 d.total_space 1000000000 ++ "G",
            Color.BLUE, none, none⟩
      ∧ diskSegment e = none := by
  constructor
  · rw [diskSegment, checkedSub, if_pos hd]
    rfl
  · rw [diskSegment, checkedSub, if_neg (Nat.not_le.mpr he)]
    rfl

theorem C10_storage_subtraction_witness :
    diskSegment diskOk
        = some ⟨" : " ++ fmt1 (diskOk.total_space - diskOk.available_space) 1000000000
              ++ "G / " ++ fmt1 diskOk.total_space 1000000000 ++ "G",
            Color.BLUE, none, none⟩
      ∧ diskSegment diskBad = none :=
  C10_storage_subtraction diskOk diskBad (by decide) (by decide)
